import Mathlib

/-!
Verification of the YouTube content-automation backend (`main.py`, `schemas.py`)
against its natural-language specification.

The embedding is shallow: each FastAPI endpoint body becomes a pure Lean
function.  The document store (Mongo adapter `database.py`, not part of the
repository) is modelled as an association list of `(id, VideoJob)` pairs with
`getDoc`/`updateDoc` mirroring `get_document_by_id`/`update_document` (an
update merges the given fields into the stored document).  External
collaborators (gTTS, moviepy render, the YouTube API client) are modelled as
outcome parameters (`Except`), since the endpoints only branch on whether the
collaborator call raised; the text of a raised exception is the `String`
payload.  Python string truncation `s[:n]` is `pyTake`, `str.strip()` is
`pyStrip`, and Python truthiness of an optional string ("" and None are
falsy) is `truthy`.
-/

/-- The `VideoJob` document, from `schemas.py` (class `VideoJob`). -/
structure VideoJob where
  niche : String
  title : String
  keywords : List String
  style : String
  duration : Int
  outline : List String
  script : String
  status : String
  audio_url : Option String := none
  thumbnail_url : Option String := none
  youtube_url : Option String := none
  upload_status : Option String := none
deriving Repr, DecidableEq

/-- An HTTP error as raised by `HTTPException(status_code, detail)`. -/
structure HErr where
  code : Nat
  detail : String
deriving Repr, DecidableEq

/-- The `videojob` collection of the document store: id ↦ document. -/
def Store : Type := List (String × VideoJob)

/-- `get_document_by_id("videojob", id)`: the first document with this id. -/
def getDoc : Store → String → Option VideoJob
  | [], _ => none
  | kv :: t, id => bif kv.1 == id then some kv.2 else getDoc t id

/-- `update_document("videojob", id, fields)`: merge the fields `f` into the
document with this id. -/
def updateDoc : Store → String → (VideoJob → VideoJob) → Store
  | [], _, _ => []
  | kv :: t, id, f => (bif kv.1 == id then (kv.1, f kv.2) else kv) :: updateDoc t id f

theorem getDoc_updateDoc (s : Store) (id : String) (f : VideoJob → VideoJob) :
    getDoc (updateDoc s id f) id = (getDoc s id).map f := by
  induction s with
  | nil => rfl
  | cons kv t ih =>
    cases h : kv.1 == id
    · simp only [getDoc, updateDoc, h, cond_false]
      exact ih
    · simp only [getDoc, updateDoc, h, cond_true, Option.map_some']

/-- Python truthiness of an optional string (`None` and `""` are falsy). -/
def truthy : Option String → Bool
  | none => false
  | some s => s ≠ ""

/-!
Lean core string helpers (`String.trim`, `String.take`, `String.startsWith`,
`String.split`) are implemented by well-founded recursion over `Substring`
and do not reduce inside the kernel, so the corresponding Python operations
are modelled structurally over the underlying character list instead.
-/

/-- Python `str.strip()`: drop whitespace from both ends. -/
def pyStrip (s : String) : String :=
  ⟨((s.data.dropWhile Char.isWhitespace).reverse.dropWhile Char.isWhitespace).reverse⟩

/-- Python `s[:n]` on a string: the first `n` characters. -/
def pyTake (s : String) (n : Nat) : String :=
  ⟨s.data.take n⟩

/-- Python `s.startswith(pre)`. -/
def pyStartsWith (s pre : String) : Bool :=
  s.data.take pre.data.length == pre.data

/-- Python `s.lstrip("/")`: drop leading slashes. -/
def pyLStripSlash (s : String) : String :=
  ⟨s.data.dropWhile (fun c => c == '/')⟩

/-- Python `x or d` for an optional int (`None` and `0` are falsy). -/
def pyOrInt (x : Option Int) (d : Int) : Int :=
  match x with
  | none => d
  | some v => if v = 0 then d else v

/-- Python `x or d` for an optional string (`None` and `""` are falsy). -/
def pyOrStr (x : Option String) (d : String) : String :=
  match x with
  | none => d
  | some s => if s = "" then d else s

/-- Python `x or d` for an optional list (`None` and `[]` are falsy). -/
def pyOrListStr (x : Option (List String)) (d : List String) : List String :=
  match x with
  | none => d
  | some l => if l = [] then d else l

/-- Request body of `POST /api/generate` (`GenerateRequest` in `main.py`). -/
structure GenerateRequest where
  niche : String
  style : Option String := some "educational"
  duration : Option Int := some 120
  keywords : Option (List String) := some []
deriving Repr, DecidableEq

/-- The `VideoJob` persisted by `generate_content` (main.py lines 54-94),
with `niche` already trimmed, `style` and `duration` already defaulted and
the duration already clamped.  The source builds five title templates but
always selects `templates[0]`; the four unused templates are pure local
strings with no observable effect and are omitted here. -/
def buildJob (niche style : String) (duration : Int) (keywords : List String) :
    VideoJob :=
  { niche := niche
    title := niche ++ ": Rahasia Yang Jarang Dibahas"
    keywords := keywords
    style := style
    duration := duration
    outline := [
      "Hook pembuka yang memikat",
      "Perkenalan singkat channel & konteks",
      "Penjelasan inti tentang " ++ niche,
      "Tips/praktik terbaik",
      "Contoh kasus nyata",
      "Ringkasan & CTA subscribe"]
    script := String.intercalate "\n\n" [
      "[HOOK] Bayangin kalau kamu bisa memahami " ++ niche ++
        " hanya dalam beberapa menit...",
      "[INTRO] Halo! Di video ini kita bahas " ++ niche ++ " dengan gaya " ++
        style ++ ".",
      "[CONTENT] Intinya, " ++ niche ++ " punya beberapa poin penting: ...",
      "[TIPS] Beberapa tips cepat: 1) ..., 2) ..., 3) ...",
      "[EXAMPLE] Contohnya, ...",
      "[OUTRO] Thanks sudah nonton! Jangan lupa like & subscribe."]
    status := "generated" }

/-- `POST /api/generate` (`generate_content`, main.py lines 44-97), returning
the job it persists via `create_document`.  `payload.duration or 120` and
`payload.style or "educational"` are Python `or`, so a supplied `0` duration
or `""` style falls back to the default before clamping. -/
def generate_content (p : GenerateRequest) : Except HErr VideoJob :=
  if pyStrip p.niche = "" then
    .error ⟨400, "Niche/topic is required"⟩
  else
    .ok (buildJob (pyStrip p.niche) (pyOrStr p.style "educational")
      (max 30 (min (pyOrInt p.duration 120) 900))
      (pyOrListStr p.keywords []))

/-- C3 counterexample: `generate(duration=0)` stores the default 120, because
`payload.duration or 120` treats the integer 0 as missing; the claimed clamp
formula would give `max(30, min(0, 900)) = 30`. -/
theorem duration_zero_defaults_cex :
    (generate_content { niche := "Fakta Unik", duration := some 0 }).toOption.map
        VideoJob.duration = some 120
    ∧ ¬ ((120 : Int) = max 30 (min 0 900)) := by
  constructor
  · rfl
  · decide

/-- C3 (amended): for a valid niche and any supplied nonzero duration `d`, the
stored duration is `max 30 (min d 900)`. -/
theorem duration_clamp_nonzero (p : GenerateRequest) (d : Int)
    (hn : ¬ pyStrip p.niche = "") (hd : p.duration = some d) (h0 : ¬ d = 0) :
    ∃ j, generate_content p = .ok j ∧ j.duration = max 30 (min d 900) := by
  have h : generate_content p = .ok (buildJob (pyStrip p.niche)
      (pyOrStr p.style "educational") (max 30 (min (pyOrInt p.duration 120) 900))
      (pyOrListStr p.keywords [])) := by
    unfold generate_content
    rw [if_neg hn]
  refine ⟨_, h, ?_⟩
  simp [buildJob, hd, pyOrInt, h0]

/-- C3 witness: `generate(duration=10)` stores `max 30 (min 10 900) = 30`, and
`generate(duration=10000)` stores `max 30 (min 10000 900) = 900`. -/
theorem duration_clamp_nonzero_witness :
    (∃ j, generate_content { niche := "Fakta Unik", duration := some 10 } = .ok j
        ∧ j.duration = max 30 (min 10 900))
    ∧ (∃ j, generate_content { niche := "Fakta Unik", duration := some 10000 } = .ok j
        ∧ j.duration = max 30 (min 10000 900)) :=
  ⟨duration_clamp_nonzero _ 10 (by decide) rfl (by decide),
   duration_clamp_nonzero _ 10000 (by decide) rfl (by decide)⟩

/-- C9: `generate_content` is a pure function of
`(niche, style, duration, keywords)` — no randomness, no external call — so
two requests with identical fields yield byte-identical title, outline and
script. -/
theorem generate_deterministic (p q : GenerateRequest)
    (hn : p.niche = q.niche) (hs : p.style = q.style)
    (hd : p.duration = q.duration) (hk : p.keywords = q.keywords)
    (hv : ¬ pyStrip p.niche = "") :
    ∃ j1 j2, generate_content p = .ok j1 ∧ generate_content q = .ok j2
      ∧ j1.title = j2.title ∧ j1.outline = j2.outline ∧ j1.script = j2.script := by
  have hpq : p = q := by cases p; cases q; simp_all
  subst hpq
  have h : generate_content p = .ok (buildJob (pyStrip p.niche)
      (pyOrStr p.style "educational")
      (max 30 (min (pyOrInt p.duration 120) 900)) (pyOrListStr p.keywords [])) := by
    unfold generate_content
    rw [if_neg hv]
  exact ⟨_, _, h, h, rfl, rfl, rfl⟩

/-- C9 witness at a concrete request. -/
theorem generate_deterministic_witness :
    ∃ j1 j2,
      generate_content { niche := "Fakta Unik" } = .ok j1
      ∧ generate_content { niche := "Fakta Unik" } = .ok j2
      ∧ j1.title = j2.title ∧ j1.outline = j2.outline ∧ j1.script = j2.script :=
  generate_deterministic _ _ rfl rfl rfl rfl (by decide)

/-- `POST /api/tts` (`generate_tts`, main.py lines 118-136).  The gTTS
collaborator (synthesis plus saving of `audio/{job_id}.mp3`) is an outcome
parameter: `.ok ()` if the call returns, `.error e` if it raises with message
`e`.  The `lang`/`slow` request fields are passed through to the collaborator
and do not influence the step logic.  Returns the new store and the response
`(audio_url, status)` or an HTTP error. -/
def generate_tts (store : Store) (jid : String) (tts : Except String Unit) :
    Store × Except HErr (String × String) :=
  match getDoc store jid with
  | none => (store, .error ⟨404, "Job not found"⟩)
  | some j =>
    if pyStrip j.script = "" then
      (store, .error ⟨400, "Script is empty for this job"⟩)
    else
      match tts with
      | .error e => (store, .error ⟨500, "TTS failed: " ++ pyTake e 200⟩)
      | .ok _ =>
        (updateDoc store jid (fun x =>
          { x with audio_url := some ("/static/audio/" ++ jid ++ ".mp3"),
                   status := "tts_ready" }),
         .ok ("/static/audio/" ++ jid ++ ".mp3", "tts_ready"))

/-- C5: on TTS collaborator failure the Voice-Over Step returns HTTP 500
(`TTS failed: <detail truncated to 200>`) and the store — in particular the
job document — is exactly the store before the call: nothing is committed. -/
theorem tts_failure_store_unchanged (store : Store) (jid e : String)
    (j : VideoJob) (hj : getDoc store jid = some j)
    (hs : ¬ pyStrip j.script = "") :
    generate_tts store jid (.error e) =
      (store, .error ⟨500, "TTS failed: " ++ pyTake e 200⟩) := by
  unfold generate_tts
  simp only [hj, if_neg hs]

/-- Job as created by `generate(niche="Fakta Unik")`. -/
def jobGen : VideoJob :=
  { niche := "Fakta Unik"
    title := "Fakta Unik: Rahasia Yang Jarang Dibahas"
    keywords := []
    style := "educational"
    duration := 120
    outline := []
    script := "halo"
    status := "generated" }

def storeGen : Store := [("J1", jobGen)]

/-- C5 witness at a concrete store and failure message. -/
theorem tts_failure_store_unchanged_witness :
    generate_tts storeGen "J1" (.error "boom") =
      (storeGen, .error ⟨500, "TTS failed: " ++ pyTake "boom" 200⟩) :=
  tts_failure_store_unchanged storeGen "J1" "boom" jobGen rfl (by decide)

/-- The success path of `generate_tts`, as one equation. -/
theorem generate_tts_ok (store : Store) (jid : String)
    (j : VideoJob) (hj : getDoc store jid = some j)
    (hs : ¬ pyStrip j.script = "") :
    generate_tts store jid (.ok ()) =
      (updateDoc store jid (fun x =>
        { x with audio_url := some ("/static/audio/" ++ jid ++ ".mp3"),
                 status := "tts_ready" }),
       .ok ("/static/audio/" ++ jid ++ ".mp3", "tts_ready")) := by
  unfold generate_tts
  simp only [hj, if_neg hs]

/-- C7: on TTS success the step persists `status = "tts_ready"` and
`audio_url = "/static/audio/{job_id}.mp3"`, a path derived only from the job
id; re-invoking the step on the updated store commits exactly the same
document again (idempotent overwrite of the same artifact path). -/
theorem tts_success_sets_audio_url (store : Store) (jid : String)
    (j : VideoJob) (hj : getDoc store jid = some j)
    (hs : ¬ pyStrip j.script = "") :
    (generate_tts store jid (.ok ())).2 =
      .ok ("/static/audio/" ++ jid ++ ".mp3", "tts_ready")
    ∧ getDoc (generate_tts store jid (.ok ())).1 jid =
      some { j with audio_url := some ("/static/audio/" ++ jid ++ ".mp3"),
                    status := "tts_ready" }
    ∧ getDoc (generate_tts (generate_tts store jid (.ok ())).1 jid (.ok ())).1 jid =
      some { j with audio_url := some ("/static/audio/" ++ jid ++ ".mp3"),
                    status := "tts_ready" } := by
  have h1 := generate_tts_ok store jid j hj hs
  have h2 : getDoc (generate_tts store jid (.ok ())).1 jid =
      some { j with audio_url := some ("/static/audio/" ++ jid ++ ".mp3"),
                    status := "tts_ready" } := by
    rw [h1, getDoc_updateDoc, hj, Option.map_some']
  have h3 := generate_tts_ok (generate_tts store jid (.ok ())).1 jid
    { j with audio_url := some ("/static/audio/" ++ jid ++ ".mp3"),
             status := "tts_ready" } h2 hs
  refine ⟨by rw [h1], h2, ?_⟩
  rw [h3, getDoc_updateDoc, h2, Option.map_some']

/-- C7 witness at a concrete store. -/
theorem tts_success_sets_audio_url_witness :
    (generate_tts storeGen "J1" (.ok ())).2 =
      .ok ("/static/audio/" ++ "J1" ++ ".mp3", "tts_ready")
    ∧ getDoc (generate_tts storeGen "J1" (.ok ())).1 "J1" =
      some { jobGen with audio_url := some ("/static/audio/" ++ "J1" ++ ".mp3"),
                         status := "tts_ready" }
    ∧ getDoc (generate_tts (generate_tts storeGen "J1" (.ok ())).1 "J1" (.ok ())).1 "J1" =
      some { jobGen with audio_url := some ("/static/audio/" ++ "J1" ++ ".mp3"),
                         status := "tts_ready" } :=
  tts_success_sets_audio_url storeGen "J1" jobGen rfl (by decide)

/-- Outcomes of the external collaborators consulted by the Upload Step:
whether both credential files exist (`os.path.exists` on
`client_secret.json` and `token.json`), the moviepy render of the
single-frame video, and the YouTube API interaction of the second `try`
block (credential load, `videos().insert` and the secondary
`thumbnails().set`), which yields the video id on success. -/
structure UploadEnv where
  credsPresent : Bool
  render : Except String Unit
  upload : Except String String
deriving Repr

/-- The non-error JSON bodies returned by `POST /api/upload`. -/
inductive UploadResp where
  | requiresCredentials (detail : String)
  | renderFailed (detail : String)
  | uploaded (url : String)
deriving Repr, DecidableEq

/-- `thumb_path` (main.py line 218): a local path only when the stored
`thumbnail_url` is truthy and starts with `/static/`. -/
def thumbPath (j : VideoJob) : Option String :=
  match j.thumbnail_url with
  | none => none
  | some t => bif truthy (some t) && pyStartsWith t "/static/" then
      some (pyLStripSlash t) else none

/-- The in-repo exception message raised when no thumbnail path exists
(main.py line 238). -/
def thumbRequiredMsg : String :=
  "Thumbnail image required to produce a video. Generate thumbnail first."

/-- `POST /api/upload` (`upload_youtube`, main.py lines 204-291).  Returns the
new store and either a structured response or an HTTP error.  The audio local
path (line 217) is only ever consumed by the render collaborator, so it is
part of `env.render`; the only in-repo branching inside the first `try` block
is the missing-thumbnail check, which raises (and is caught as a render
failure) before the render collaborator is consulted. -/
def upload_youtube (store : Store) (jid : String) (_priv : Option String)
    (env : UploadEnv) : Store × Except HErr UploadResp :=
  match getDoc store jid with
  | none => (store, .error ⟨404, "Job not found"⟩)
  | some j =>
    bif truthy j.audio_url then
      bif env.credsPresent then
        match thumbPath j with
        | none =>
          (updateDoc store jid (fun x =>
            { x with upload_status := some ("render_failed: " ++ pyTake thumbRequiredMsg 120) }),
           .ok (.renderFailed thumbRequiredMsg))
        | some _ =>
          match env.render with
          | .error e =>
            (updateDoc store jid (fun x =>
              { x with upload_status := some ("render_failed: " ++ pyTake e 120) }),
             .ok (.renderFailed e))
          | .ok _ =>
            match env.upload with
            | .error e =>
              (updateDoc store jid (fun x =>
                { x with upload_status := some ("upload_failed: " ++ pyTake e 120) }),
               .error ⟨500, "Upload failed: " ++ pyTake e 200⟩)
            | .ok vid =>
              (updateDoc store jid (fun x =>
                { x with youtube_url := some ("https://www.youtube.com/watch?v=" ++ vid),
                         upload_status := some "uploaded" }),
               .ok (.uploaded ("https://www.youtube.com/watch?v=" ++ vid)))
      else
        (updateDoc store jid (fun x =>
          { x with upload_status := some "requires_credentials" }),
         .ok (.requiresCredentials
           "Google OAuth credentials not found. Provide client_secret.json and token.json."))
    else
      (store, .error ⟨400, "Audio not found. Generate TTS first."⟩)

/-- Branch equation: credentials absent (main.py lines 224-229). -/
theorem upload_noCreds_eq (store : Store) (jid : String) (priv : Option String)
    (env : UploadEnv) (j : VideoJob) (hj : getDoc store jid = some j)
    (ha : truthy j.audio_url = true) (hc : env.credsPresent = false) :
    upload_youtube store jid priv env =
      (updateDoc store jid (fun x =>
        { x with upload_status := some "requires_credentials" }),
       .ok (.requiresCredentials
         "Google OAuth credentials not found. Provide client_secret.json and token.json.")) := by
  unfold upload_youtube
  simp only [hj, ha, hc, cond_true, cond_false]

/-- Branch equation: credentials present but no thumbnail path
(main.py lines 237-250). -/
theorem upload_noThumb_eq (store : Store) (jid : String) (priv : Option String)
    (env : UploadEnv) (j : VideoJob) (hj : getDoc store jid = some j)
    (ha : truthy j.audio_url = true) (hc : env.credsPresent = true)
    (ht : thumbPath j = none) :
    upload_youtube store jid priv env =
      (updateDoc store jid (fun x =>
        { x with upload_status := some ("render_failed: " ++ pyTake thumbRequiredMsg 120) }),
       .ok (.renderFailed thumbRequiredMsg)) := by
  unfold upload_youtube
  simp only [hj, ha, hc, ht, cond_true, cond_false]

/-- Branch equation: render collaborator raises (main.py lines 248-250). -/
theorem upload_renderFail_eq (store : Store) (jid : String) (priv : Option String)
    (env : UploadEnv) (j : VideoJob) (tp e : String) (hj : getDoc store jid = some j)
    (ha : truthy j.audio_url = true) (hc : env.credsPresent = true)
    (ht : thumbPath j = some tp) (hr : env.render = .error e) :
    upload_youtube store jid priv env =
      (updateDoc store jid (fun x =>
        { x with upload_status := some ("render_failed: " ++ pyTake e 120) }),
       .ok (.renderFailed e)) := by
  unfold upload_youtube
  simp only [hj, ha, hc, ht, hr, cond_true, cond_false]

/-- Branch equation: upload collaborator raises (main.py lines 289-291). -/
theorem upload_uploadFail_eq (store : Store) (jid : String) (priv : Option String)
    (env : UploadEnv) (j : VideoJob) (tp e : String) (hj : getDoc store jid = some j)
    (ha : truthy j.audio_url = true) (hc : env.credsPresent = true)
    (ht : thumbPath j = some tp) (hr : env.render = .ok ())
    (hu : env.upload = .error e) :
    upload_youtube store jid priv env =
      (updateDoc store jid (fun x =>
        { x with upload_status := some ("upload_failed: " ++ pyTake e 120) }),
       .error ⟨500, "Upload failed: " ++ pyTake e 200⟩) := by
  unfold upload_youtube
  simp only [hj, ha, hc, ht, hr, hu, cond_true, cond_false]

/-- Branch equation: upload succeeds (main.py lines 286-288). -/
theorem upload_success_eq (store : Store) (jid : String) (priv : Option String)
    (env : UploadEnv) (j : VideoJob) (tp vid : String) (hj : getDoc store jid = some j)
    (ha : truthy j.audio_url = true) (hc : env.credsPresent = true)
    (ht : thumbPath j = some tp) (hr : env.render = .ok ())
    (hu : env.upload = .ok vid) :
    upload_youtube store jid priv env =
      (updateDoc store jid (fun x =>
        { x with youtube_url := some ("https://www.youtube.com/watch?v=" ++ vid),
                 upload_status := some "uploaded" }),
       .ok (.uploaded ("https://www.youtube.com/watch?v=" ++ vid))) := by
  unfold upload_youtube
  simp only [hj, ha, hc, ht, hr, hu, cond_true, cond_false]

/-- A job after a successful Voice-Over Step (audio present, no thumbnail). -/
def jobAudio : VideoJob :=
  { jobGen with status := "tts_ready", audio_url := some "/static/audio/J1.mp3" }

def storeAudio : Store := [("J1", jobAudio)]

/-- A job after Voice-Over and Thumbnail Steps. -/
def jobReady : VideoJob :=
  { jobAudio with status := "thumb_ready",
                  thumbnail_url := some "/static/thumbnails/J1.jpg" }

def storeReady : Store := [("J1", jobReady)]

def envNoCreds : UploadEnv := ⟨false, .ok (), .ok "vid"⟩

def envCreds : UploadEnv := ⟨true, .ok (), .ok "vid"⟩

def envAllOk : UploadEnv := ⟨true, .ok (), .ok "abc123"⟩

/-- C4: with `audio_url` set but credential files absent, the Upload Step
returns `status = "requires_credentials"` as a normal result (`.ok`, not an
HTTP error), persists `upload_status = "requires_credentials"` on the job,
and leaves `youtube_url` exactly as it was (in particular unset if it was
unset). -/
theorem no_credentials_soft_stop (store : Store) (jid : String)
    (priv : Option String) (env : UploadEnv) (j : VideoJob)
    (hj : getDoc store jid = some j) (ha : truthy j.audio_url = true)
    (hc : env.credsPresent = false) :
    (upload_youtube store jid priv env).2 =
      .ok (.requiresCredentials
        "Google OAuth credentials not found. Provide client_secret.json and token.json.")
    ∧ getDoc (upload_youtube store jid priv env).1 jid =
      some { j with upload_status := some "requires_credentials" }
    ∧ (getDoc (upload_youtube store jid priv env).1 jid).map VideoJob.youtube_url
      = some j.youtube_url := by
  have h := upload_noCreds_eq store jid priv env j hj ha hc
  refine ⟨by rw [h], ?_, ?_⟩
  · simp only [h]
    rw [getDoc_updateDoc, hj, Option.map_some']
  · simp only [h]
    rw [getDoc_updateDoc, hj, Option.map_some', Option.map_some']

/-- C4 witness at a concrete store with no `youtube_url` set. -/
theorem no_credentials_soft_stop_witness :
    (upload_youtube storeAudio "J1" none envNoCreds).2 =
      .ok (.requiresCredentials
        "Google OAuth credentials not found. Provide client_secret.json and token.json.")
    ∧ getDoc (upload_youtube storeAudio "J1" none envNoCreds).1 "J1" =
      some { jobAudio with upload_status := some "requires_credentials" }
    ∧ (getDoc (upload_youtube storeAudio "J1" none envNoCreds).1 "J1").map
        VideoJob.youtube_url = some jobAudio.youtube_url :=
  no_credentials_soft_stop storeAudio "J1" none envNoCreds jobAudio rfl rfl rfl

/-- C2 counterexample: on a job with audio but no thumbnail and credentials
present, the Upload Step does not fail with a `ValidationError` (HTTP 400);
it returns the soft result `status = "render_failed"` (an `.ok` value) and
persists `upload_status = "render_failed: ..."`. -/
theorem missing_thumbnail_not_validation_cex :
    (upload_youtube storeAudio "J1" none envCreds).2 =
      .ok (.renderFailed thumbRequiredMsg)
    ∧ getDoc (upload_youtube storeAudio "J1" none envCreds).1 "J1" =
      some { jobAudio with
             upload_status := some ("render_failed: " ++ pyTake thumbRequiredMsg 120) } :=
  ⟨rfl, rfl⟩

/-- C2 (amended): with audio set, credentials present and `thumbnail_url`
unset, the Upload Step records
`upload_status = "render_failed: Thumbnail image required ..."` and returns
`status = "render_failed"` as a normal structured result — not a raised
`ValidationError` — and it does so for every render/upload collaborator
outcome, i.e. before any collaborator is consulted. -/
theorem missing_thumbnail_render_failed_soft (store : Store) (jid : String)
    (priv : Option String) (env : UploadEnv) (j : VideoJob)
    (hj : getDoc store jid = some j) (ha : truthy j.audio_url = true)
    (hc : env.credsPresent = true) (ht : j.thumbnail_url = none) :
    (upload_youtube store jid priv env).2 = .ok (.renderFailed thumbRequiredMsg)
    ∧ getDoc (upload_youtube store jid priv env).1 jid =
      some { j with
             upload_status := some ("render_failed: " ++ pyTake thumbRequiredMsg 120) } := by
  have htp : thumbPath j = none := by simp only [thumbPath, ht]
  have h := upload_noThumb_eq store jid priv env j hj ha hc htp
  refine ⟨by rw [h], ?_⟩
  simp only [h]
  rw [getDoc_updateDoc, hj, Option.map_some']

/-- C2 witness: the outcome is the same for failing collaborators, showing
the render collaborator is never reached. -/
theorem missing_thumbnail_render_failed_soft_witness :
    (upload_youtube storeAudio "J1" none ⟨true, .error "boom", .error "boom2"⟩).2 =
      .ok (.renderFailed thumbRequiredMsg)
    ∧ getDoc (upload_youtube storeAudio "J1" none ⟨true, .error "boom", .error "boom2"⟩).1 "J1" =
      some { jobAudio with
             upload_status := some ("render_failed: " ++ pyTake thumbRequiredMsg 120) } :=
  missing_thumbnail_render_failed_soft storeAudio "J1" none
    ⟨true, .error "boom", .error "boom2"⟩ jobAudio rfl rfl rfl rfl

/-- C1 counterexample: a fully successful Upload Step (credentials present,
render and upload collaborators succeed) leaves the `status` field at
`"thumb_ready"`; the value `"uploaded"` is written to `upload_status`, not to
`status`, so the stored `status` does not equal `"uploaded"` afterwards. -/
theorem status_not_uploaded_after_upload_cex :
    (upload_youtube storeReady "J1" (some "unlisted") envAllOk).2 =
      .ok (.uploaded "https://www.youtube.com/watch?v=abc123")
    ∧ (getDoc (upload_youtube storeReady "J1" (some "unlisted") envAllOk).1 "J1").map
        VideoJob.status = some "thumb_ready"
    ∧ ¬ (("thumb_ready" : String) = "uploaded") :=
  ⟨rfl, rfl, by decide⟩

/-- C1 (amended): on a fully successful Upload Step the stored job afterwards
has `upload_status = "uploaded"` and `youtube_url` set; the `status` field is
not modified by the Upload Step (the record equality keeps `status := j.status`),
so `"uploaded"` is recorded in `upload_status` rather than as the final value
of the `status` chain. -/
theorem upload_success_sets_upload_status (store : Store) (jid : String)
    (priv : Option String) (env : UploadEnv) (j : VideoJob) (tp vid : String)
    (hj : getDoc store jid = some j) (ha : truthy j.audio_url = true)
    (hc : env.credsPresent = true) (ht : thumbPath j = some tp)
    (hr : env.render = .ok ()) (hu : env.upload = .ok vid) :
    (upload_youtube store jid priv env).2 =
      .ok (.uploaded ("https://www.youtube.com/watch?v=" ++ vid))
    ∧ getDoc (upload_youtube store jid priv env).1 jid =
      some { j with youtube_url := some ("https://www.youtube.com/watch?v=" ++ vid),
                    upload_status := some "uploaded" }
    ∧ (getDoc (upload_youtube store jid priv env).1 jid).map VideoJob.status
      = some j.status := by
  have h := upload_success_eq store jid priv env j tp vid hj ha hc ht hr hu
  refine ⟨by rw [h], ?_, ?_⟩
  · simp only [h]
    rw [getDoc_updateDoc, hj, Option.map_some']
  · simp only [h]
    rw [getDoc_updateDoc, hj, Option.map_some', Option.map_some']

/-- C1 witness at a concrete fully-prepared job. -/
theorem upload_success_sets_upload_status_witness :
    (upload_youtube storeReady "J1" (some "public") envCreds).2 =
      .ok (.uploaded ("https://www.youtube.com/watch?v=" ++ "vid"))
    ∧ getDoc (upload_youtube storeReady "J1" (some "public") envCreds).1 "J1" =
      some { jobReady with
             youtube_url := some ("https://www.youtube.com/watch?v=" ++ "vid"),
             upload_status := some "uploaded" }
    ∧ (getDoc (upload_youtube storeReady "J1" (some "public") envCreds).1 "J1").map
        VideoJob.status = some jobReady.status :=
  upload_success_sets_upload_status storeReady "J1" (some "public") envCreds
    jobReady "static/thumbnails/J1.jpg" "vid" rfl rfl rfl rfl rfl rfl

/-- C6: with a job whose audio and thumbnail paths are in place and
credentials present, the two Upload Step failure modes are asymmetric:
a render-collaborator failure `e` is persisted as
`upload_status = "render_failed: <e truncated to 120>"` and returned as a
normal `.ok` result (for any upload-collaborator outcome `u`, which is never
reached), while an upload-collaborator failure `e` is persisted as
`upload_status = "upload_failed: <e truncated to 120>"` and raised as
HTTP 500. -/
theorem upload_failure_asymmetry (store : Store) (jid : String)
    (priv : Option String) (j : VideoJob) (tp : String)
    (hj : getDoc store jid = some j) (ha : truthy j.audio_url = true)
    (ht : thumbPath j = some tp) :
    (∀ e u, (upload_youtube store jid priv ⟨true, .error e, u⟩).2 =
        .ok (.renderFailed e)
      ∧ getDoc (upload_youtube store jid priv ⟨true, .error e, u⟩).1 jid =
        some { j with upload_status := some ("render_failed: " ++ pyTake e 120) })
    ∧ (∀ e, (upload_youtube store jid priv ⟨true, .ok (), .error e⟩).2 =
        .error ⟨500, "Upload failed: " ++ pyTake e 200⟩
      ∧ getDoc (upload_youtube store jid priv ⟨true, .ok (), .error e⟩).1 jid =
        some { j with upload_status := some ("upload_failed: " ++ pyTake e 120) }) := by
  constructor
  · intro e u
    have h := upload_renderFail_eq store jid priv ⟨true, .error e, u⟩ j tp e hj ha rfl ht rfl
    refine ⟨by rw [h], ?_⟩
    simp only [h]
    rw [getDoc_updateDoc, hj, Option.map_some']
  · intro e
    have h := upload_uploadFail_eq store jid priv ⟨true, .ok (), .error e⟩ j tp e hj ha rfl ht rfl rfl
    refine ⟨by rw [h], ?_⟩
    simp only [h]
    rw [getDoc_updateDoc, hj, Option.map_some']

/-- C6 witness: both failure modes instantiated at a concrete job. -/
theorem upload_failure_asymmetry_witness :
    ((upload_youtube storeReady "J1" none ⟨true, .error "ffmpeg missing", .ok "vid"⟩).2 =
        .ok (.renderFailed "ffmpeg missing")
      ∧ getDoc (upload_youtube storeReady "J1" none
          ⟨true, .error "ffmpeg missing", .ok "vid"⟩).1 "J1" =
        some { jobReady with
               upload_status := some ("render_failed: " ++ pyTake "ffmpeg missing" 120) })
    ∧ ((upload_youtube storeReady "J1" none ⟨true, .ok (), .error "quota"⟩).2 =
        .error ⟨500, "Upload failed: " ++ pyTake "quota" 200⟩
      ∧ getDoc (upload_youtube storeReady "J1" none ⟨true, .ok (), .error "quota"⟩).1 "J1" =
        some { jobReady with
               upload_status := some ("upload_failed: " ++ pyTake "quota" 120) }) :=
  ⟨(upload_failure_asymmetry storeReady "J1" none jobReady "static/thumbnails/J1.jpg"
      rfl rfl rfl).1 "ffmpeg missing" (.ok "vid"),
   (upload_failure_asymmetry storeReady "J1" none jobReady "static/thumbnails/J1.jpg"
      rfl rfl rfl).2 "quota"⟩

/-- C10: whatever the collaborator outcomes (missing credentials, render
failure, upload failure, upload success), the Upload Step only ever writes
the fields `upload_status` and `youtube_url`; every other stored field of the
job — niche, title, keywords, style, duration, outline, script, status,
audio_url, thumbnail_url — is unchanged afterwards. -/
theorem upload_step_frame (store : Store) (jid : String) (priv : Option String)
    (env : UploadEnv) (j j' : VideoJob) (hj : getDoc store jid = some j)
    (ha : truthy j.audio_url = true)
    (hj' : getDoc (upload_youtube store jid priv env).1 jid = some j') :
    j'.niche = j.niche ∧ j'.title = j.title ∧ j'.keywords = j.keywords
    ∧ j'.style = j.style ∧ j'.duration = j.duration ∧ j'.outline = j.outline
    ∧ j'.script = j.script ∧ j'.status = j.status ∧ j'.audio_url = j.audio_url
    ∧ j'.thumbnail_url = j.thumbnail_url := by
  cases hc : env.credsPresent
  · have h := upload_noCreds_eq store jid priv env j hj ha hc
    simp only [h] at hj'
    rw [getDoc_updateDoc, hj, Option.map_some', Option.some.injEq] at hj'
    subst hj'
    exact ⟨rfl, rfl, rfl, rfl, rfl, rfl, rfl, rfl, rfl, rfl⟩
  · cases ht : thumbPath j with
    | none =>
      have h := upload_noThumb_eq store jid priv env j hj ha hc ht
      simp only [h] at hj'
      rw [getDoc_updateDoc, hj, Option.map_some', Option.some.injEq] at hj'
      subst hj'
      exact ⟨rfl, rfl, rfl, rfl, rfl, rfl, rfl, rfl, rfl, rfl⟩
    | some tp =>
      cases hr : env.render with
      | error e =>
        have h := upload_renderFail_eq store jid priv env j tp e hj ha hc ht hr
        simp only [h] at hj'
        rw [getDoc_updateDoc, hj, Option.map_some', Option.some.injEq] at hj'
        subst hj'
        exact ⟨rfl, rfl, rfl, rfl, rfl, rfl, rfl, rfl, rfl, rfl⟩
      | ok u =>
        cases u
        cases hu : env.upload with
        | error e =>
          have h := upload_uploadFail_eq store jid priv env j tp e hj ha hc ht hr hu
          simp only [h] at hj'
          rw [getDoc_updateDoc, hj, Option.map_some', Option.some.injEq] at hj'
          subst hj'
          exact ⟨rfl, rfl, rfl, rfl, rfl, rfl, rfl, rfl, rfl, rfl⟩
        | ok vid =>
          have h := upload_success_eq store jid priv env j tp vid hj ha hc ht hr hu
          simp only [h] at hj'
          rw [getDoc_updateDoc, hj, Option.map_some', Option.some.injEq] at hj'
          subst hj'
          exact ⟨rfl, rfl, rfl, rfl, rfl, rfl, rfl, rfl, rfl, rfl⟩

/-- C10 witness on the upload-failure path (the path that both persists and
raises). -/
theorem upload_step_frame_witness :
    getDoc (upload_youtube storeReady "J1" none ⟨true, .ok (), .error "quota"⟩).1 "J1" =
      some { jobReady with upload_status := some ("upload_failed: " ++ pyTake "quota" 120) }
    ∧ (let j := jobReady
       let j' := { jobReady with upload_status := some ("upload_failed: " ++ pyTake "quota" 120) }
       j'.niche = j.niche ∧ j'.title = j.title ∧ j'.keywords = j.keywords
       ∧ j'.style = j.style ∧ j'.duration = j.duration ∧ j'.outline = j.outline
       ∧ j'.script = j.script ∧ j'.status = j.status ∧ j'.audio_url = j.audio_url
       ∧ j'.thumbnail_url = j.thumbnail_url) :=
  ⟨rfl, upload_step_frame storeReady "J1" none ⟨true, .ok (), .error "quota"⟩
    jobReady { jobReady with upload_status := some ("upload_failed: " ++ pyTake "quota" 120) }
    rfl rfl rfl⟩

/-- Python `str.split()` with no argument: split on whitespace runs, dropping
empty pieces; `acc` holds the current word reversed. -/
def wordsAux : List Char → List Char → List String
  | [], acc => if acc = [] then [] else [⟨acc.reverse⟩]
  | c :: cs, acc =>
    if c.isWhitespace then
      (if acc = [] then [] else [⟨acc.reverse⟩]) ++ wordsAux cs []
    else
      wordsAux cs (c :: acc)

/-- `title.split()` as in main.py line 171. -/
def pySplit (s : String) : List String := wordsAux s.data []

/-- A line rendered as its space-joined words.  The source keeps the current
line as a string `cur` and tests `(cur + " " + w).strip()`; since split words
are nonempty and whitespace-free this equals `lineStr (cur ++ [w])`, with the
`strip` only removing the leading space when `cur` is empty. -/
def lineStr (l : List String) : String := String.intercalate " " l

/-- The greedy word-wrap loop of `generate_thumbnail` (main.py lines 172-183),
parameterized by the external font measure `draw.textlength` (`widthOf`).
`cur` is the current line, held as its list of words. -/
def wrapAux (widthOf : String → Nat) (maxw : Nat) :
    List String → List String → List (List String)
  | [], cur => if cur = [] then [] else [cur]
  | w :: ws, cur =>
    if widthOf (lineStr (cur ++ [w])) ≤ maxw then
      wrapAux widthOf maxw ws (cur ++ [w])
    else if cur = [] then
      wrapAux widthOf maxw ws [w]
    else
      cur :: wrapAux widthOf maxw ws [w]

/-- The `lines` list computed for a title (main.py lines 171-183). -/
def wrapTitle (widthOf : String → Nat) (maxw : Nat) (title : String) :
    List (List String) :=
  wrapAux widthOf maxw (pySplit title) []

/-- `max_width = W - 160` with `W = 1280` (main.py line 170). -/
def maxTextWidth : Nat := 1280 - 160

/-- The lines actually drawn: `lines[:3]` (main.py line 185); any further
lines are silently dropped. -/
def renderedLines (widthOf : String → Nat) (title : String) :
    List (List String) :=
  (wrapTitle widthOf maxTextWidth title).take 3

/-- A run of `wrapAux` on a nonempty current line yields a first line that
extends the current line, followed by some rest. -/
theorem wrapAux_head (widthOf : String → Nat) (maxw : Nat) :
    ∀ (ws cur : List String), ¬ cur = [] → ∃ pre rest,
      wrapAux widthOf maxw ws cur = (cur ++ pre) :: rest := by
  intro ws
  induction ws with
  | nil =>
    intro cur h
    exact ⟨[], [], by simp [wrapAux, h]⟩
  | cons w ws ih =>
    intro cur h
    by_cases hfit : widthOf (lineStr (cur ++ [w])) ≤ maxw
    · obtain ⟨pre, rest, heq⟩ := ih (cur ++ [w]) (by simp)
      refine ⟨w :: pre, rest, ?_⟩
      simp only [wrapAux, if_pos hfit, heq, List.append_assoc, List.singleton_append]
    · refine ⟨[], wrapAux widthOf maxw ws [w], ?_⟩
      simp [wrapAux, hfit, h]

/-- Invariant-carrying characterization of the greedy wrap: the produced
lines partition the input words in order; every line is nonempty; every line
holding at least two words measured within `maxw` when it was packed; and
every line break is forced — appending the first word of the next line would
overflow `maxw`. -/
theorem wrapAux_spec (widthOf : String → Nat) (maxw : Nat) :
    ∀ (ws cur : List String),
      (2 ≤ cur.length → widthOf (lineStr cur) ≤ maxw) →
      (wrapAux widthOf maxw ws cur).flatten = cur ++ ws
      ∧ (∀ l ∈ wrapAux widthOf maxw ws cur, ¬ l = [])
      ∧ (∀ l ∈ wrapAux widthOf maxw ws cur, 2 ≤ l.length → widthOf (lineStr l) ≤ maxw)
      ∧ List.Chain' (fun a b => maxw < widthOf (lineStr (a ++ b.take 1)))
          (wrapAux widthOf maxw ws cur) := by
  intro ws
  induction ws with
  | nil =>
    intro cur hcur
    by_cases h : cur = []
    · subst h
      simp [wrapAux]
    · refine ⟨by simp [wrapAux, h], ?_, ?_, ?_⟩
      · intro l hl
        simp only [wrapAux, if_neg h, List.mem_singleton] at hl
        subst hl
        exact h
      · intro l hl hlen
        simp only [wrapAux, if_neg h, List.mem_singleton] at hl
        subst hl
        exact hcur hlen
      · simp [wrapAux, h]
  | cons w ws ih =>
    intro cur hcur
    by_cases hfit : widthOf (lineStr (cur ++ [w])) ≤ maxw
    · have heq : wrapAux widthOf maxw (w :: ws) cur =
          wrapAux widthOf maxw ws (cur ++ [w]) := by
        simp [wrapAux, hfit]
      obtain ⟨hj, hne, hw, hch⟩ := ih (cur ++ [w]) (fun _ => hfit)
      rw [heq]
      exact ⟨by rw [hj]; simp, hne, hw, hch⟩
    · by_cases h : cur = []
      · subst h
        have heq : wrapAux widthOf maxw (w :: ws) [] =
            wrapAux widthOf maxw ws [w] := by
          simp [wrapAux, hfit]
        obtain ⟨hj, hne, hw, hch⟩ := ih [w] (by intro hlen; simp at hlen)
        rw [heq]
        exact ⟨by rw [hj]; simp, hne, hw, hch⟩
      · have heq : wrapAux widthOf maxw (w :: ws) cur =
            cur :: wrapAux widthOf maxw ws [w] := by
          simp [wrapAux, hfit, h]
        obtain ⟨hj, hne, hw, hch⟩ := ih [w] (by intro hlen; simp at hlen)
        rw [heq]
        refine ⟨?_, ?_, ?_, ?_⟩
        · simp only [List.flatten_cons, hj, List.singleton_append]
        · intro l hl
          rcases List.mem_cons.mp hl with hl | hl
          · subst hl; exact h
          · exact hne l hl
        · intro l hl hlen
          rcases List.mem_cons.mp hl with hl | hl
          · subst hl; exact hcur hlen
          · exact hw l hl hlen
        · obtain ⟨pre, rest, hww⟩ := wrapAux_head widthOf maxw ws [w] (by simp)
          rw [hww]
          refine List.chain'_cons.mpr ⟨?_, ?_⟩
          · simpa using not_le.mp hfit
          · rw [← hww]
            exact hch

/-- C8: the thumbnail text wrapping is exactly the greedy algorithm, for any
external width measure: the produced lines partition the title's words in
order, lines are nonempty, any line with two or more words measured within
`max_width = 1280 - 160`, each new line starts exactly because appending its
first word to the previous line would exceed `max_width`, and only the first
3 lines are rendered, the remainder silently dropped. -/
theorem thumbnail_wrap_greedy (widthOf : String → Nat) (title : String) :
    (wrapTitle widthOf maxTextWidth title).flatten = pySplit title
    ∧ (∀ l ∈ wrapTitle widthOf maxTextWidth title, ¬ l = [])
    ∧ (∀ l ∈ wrapTitle widthOf maxTextWidth title, 2 ≤ l.length →
        widthOf (lineStr l) ≤ maxTextWidth)
    ∧ List.Chain' (fun a b => maxTextWidth < widthOf (lineStr (a ++ b.take 1)))
        (wrapTitle widthOf maxTextWidth title)
    ∧ renderedLines widthOf title = (wrapTitle widthOf maxTextWidth title).take 3 := by
  obtain ⟨hj, hne, hw, hch⟩ := wrapAux_spec widthOf maxTextWidth (pySplit title) []
    (by intro hlen; simp at hlen)
  exact ⟨by rw [wrapTitle, hj]; rfl, hne, hw, hch, rfl⟩
